import Mathlib

/-
Verification of the Airios Home Assistant integration core:
the binding state machine of config_flow.py, the polling coordinator of
coordinator.py, and the fan-platform entity handlers of fan.py/entity.py.
Every definition is a shallow embedding of the corresponding Python code,
with external pyairios enum members modelled as inductive constructors and
Python exceptions modelled as Except error values.
-/

namespace Airios

/-- Binding statuses from the external pyairios constants that the source
code names explicitly; every remaining member of the enum is represented
abstractly by the `OTHER` constructor. -/
inductive BindingStatus where
  | NOT_AVAILABLE
  | OUTGOING_BINDING_INITIALIZED
  | OUTGOING_BINDING_COMPLETED
  | INCOMING_BINDING_ACTIVE
  | INCOMING_BINDING_COMPLETED
  | OTHER (n : Nat)
deriving DecidableEq, Repr

/-- Python runtime errors raised by the address-allocation fragment:
`list.remove` raises ValueError when the element is absent, and `addrs[0]`
raises IndexError when the list is empty. -/
inductive PyErr where
  | valueError
  | indexError
deriving DecidableEq, Repr

/-- Embedding of Python `list.remove`: removes the first occurrence of `a`
from `l`, or fails (ValueError) when `a` is not present. -/
def removeElem (l : List Nat) (a : Nat) : Option (List Nat) :=
  if a ∈ l then some (l.erase a) else none

/-- The loop `for n in nodes: addrs.remove(n.modbus_address)` of
`_do_bind`: removes every node address in order, failing like Python on
the first absent address. -/
def removeAll : List Nat → List Nat → Except PyErr (List Nat)
  | addrs, [] => .ok addrs
  | addrs, n :: ns =>
    match removeElem addrs n with
    | none => .error .valueError
    | some addrs2 => removeAll addrs2 ns

/-- The address allocator of `_do_bind` (identical in controller and
accessory handlers): `addrs = list(range(2, 200))`, remove every occupied
address, take `addrs[0]`. `nodes` is the list of modbus addresses returned
by the live `api.nodes()` call. -/
def allocate (nodes : List Nat) : Except PyErr Nat :=
  match removeAll (List.range' 2 198) nodes with
  | .error e => .error e
  | .ok [] => .error .indexError
  | .ok (a :: _) => .ok a

/-- Outcome of the status-poll loop body: either some poll failed to give a
usable status (raising "Failed to get binding status") or the loop ended
with a final status, by break or by running out of iterations. -/
inductive PollOutcome where
  | statusError
  | done (s : BindingStatus)
deriving DecidableEq, Repr

/-- The status-poll loop of `_do_bind`. `polls i` is the value the i-th
`api.bind_status()` call produces: `none` for an absent result, `some none`
for a result with an absent value, `some (some s)` for status `s`. `keep`
is the status that keeps the loop going; `fuel` is the number of remaining
loop iterations (`range(1, 100)` gives 99, `range(1, 500)` gives 499).
Returns the total number of polls performed together with the outcome. -/
def pollLoop (keep : BindingStatus) (polls : Nat → Option (Option BindingStatus)) :
    Nat → Nat → BindingStatus → Nat × PollOutcome
  | i, 0, status => (i, .done status)
  | i, fuel + 1, _ =>
    match polls i with
    | some (some s) =>
      if s = keep then pollLoop keep polls (i + 1) fuel s
      else (i + 1, .done s)
    | _ => (i + 1, .statusError)

/-- Observable bridge-side effects of one `_do_bind` run. -/
inductive Effect where
  | bindCmd (addr : Nat)
  | pollStatus
  | unbind (addr : Nat)
deriving DecidableEq, Repr

/-- The events a `_do_bind` run depends on: the live node list (modbus
addresses), the acknowledgment of the bind command, and the successive
results of the `bind_status()` polls. -/
structure BindEnv where
  nodes : List Nat
  bindAck : Bool
  polls : Nat → Option (Option BindingStatus)

/-- Errors `_do_bind` can raise (all AiriosBindingException in the source,
distinguished here by their message and provenance). `bindFailed` carries
the last observed status, which the source stores in `_bind_result` before
raising. -/
inductive BindErr where
  | allocFailed (e : PyErr)
  | bindCmdRejected
  | statusReadFailed
  | bindFailed (last : BindingStatus)
deriving DecidableEq, Repr

/-- Shared body of `ControllerSubentryFlowHandler._do_bind` and
`AccessorySubentryFlowHandler._do_bind`: allocate an address, send the
bind command, poll status while it stays `keep` for at most `fuel`
iterations, and on any final status other than `succ` issue
`unbind(modbus_address)` and fail carrying that status. Returns the trace
of bridge-side effects and the session outcome (allocated address and
final status on success). -/
def doBind (keep succ : BindingStatus) (fuel : Nat) (env : BindEnv) :
    List Effect × Except BindErr (Nat × BindingStatus) :=
  match allocate env.nodes with
  | .error e => ([], .error (.allocFailed e))
  | .ok addr =>
    if env.bindAck then
      match pollLoop keep env.polls 0 fuel .NOT_AVAILABLE with
      | (n, .statusError) =>
        (Effect.bindCmd addr :: List.replicate n .pollStatus, .error .statusReadFailed)
      | (n, .done s) =>
        if s = succ then
          (Effect.bindCmd addr :: List.replicate n .pollStatus, .ok (addr, s))
        else
          (Effect.bindCmd addr :: (List.replicate n .pollStatus ++ [.unbind addr]),
            .error (.bindFailed s))
    else ([.bindCmd addr], .error .bindCmdRejected)

/-- `ControllerSubentryFlowHandler._do_bind`: keeps polling while the
status is OUTGOING_BINDING_INITIALIZED, for the 99 iterations of
`range(1, 100)`; success status is OUTGOING_BINDING_COMPLETED. -/
def doBindController (env : BindEnv) : List Effect × Except BindErr (Nat × BindingStatus) :=
  doBind .OUTGOING_BINDING_INITIALIZED .OUTGOING_BINDING_COMPLETED 99 env

/-- `AccessorySubentryFlowHandler._do_bind`: keeps polling while the
status is INCOMING_BINDING_ACTIVE, for the 499 iterations of
`range(1, 500)`; success status is INCOMING_BINDING_COMPLETED. -/
def doBindAccessory (env : BindEnv) : List Effect × Except BindErr (Nat × BindingStatus) :=
  doBind .INCOMING_BINDING_ACTIVE .INCOMING_BINDING_COMPLETED 499 env

/-- Recognizes a status-poll effect. -/
def isPoll : Effect → Bool
  | .pollStatus => true
  | _ => false

/-- Recognizes an unbind effect. -/
def isUnbind : Effect → Bool
  | .unbind _ => true
  | _ => false

/-- Number of status polls in an effect trace. -/
def countPolls (t : List Effect) : Nat := t.countP isPoll

/-- Number of unbind commands in an effect trace. -/
def countUnbinds (t : List Effect) : Nat := t.countP isUnbind

/-- Environment in which the bind command is acknowledged and every status
poll returns OUTGOING_BINDING_INITIALIZED, so the controller loop never
breaks early. -/
def ctrlEnvAllInit : BindEnv :=
  ⟨[], true, fun _ => some (some .OUTGOING_BINDING_INITIALIZED)⟩

/-- Environment in which the bind command is acknowledged and every status
poll returns INCOMING_BINDING_ACTIVE, so the accessory loop never breaks
early. -/
def accEnvAllActive : BindEnv :=
  ⟨[], true, fun _ => some (some .INCOMING_BINDING_ACTIVE)⟩

/-- Errors of the bind-done step (all AiriosBindingException in the
source, distinguished by their message). -/
inductive BindDoneErr where
  | resultUndefined
  | unexpectedResult
  | addressUndefined
  | rfReadFailed
deriving DecidableEq, Repr

/-- The subentry data recorded by `async_create_entry` at the end of a
successful bind: name, allocated modbus address, product id, and the RF
address read back from the live connection. -/
structure Entry where
  name : Option String
  address : Nat
  device : Nat
  rf_address : Nat
deriving DecidableEq, Repr

/-- Shared body of `async_step_bind_done` for both subentry handlers:
check the stored bind result equals the success status `succ`, check the
allocated modbus address is defined, read the node RF address from the
live connection (`liveRF` is the `node.device_rf_address()` result:
`none` for an absent result, `some none` for an absent value), and create
the subentry. -/
def bindDoneStep (succ : BindingStatus) (bindResult : Option BindingStatus)
    (modbusAddress : Option Nat) (liveRF : Option (Option Nat))
    (name : Option String) (productId : Nat) : Except BindDoneErr Entry :=
  match bindResult with
  | none => .error .resultUndefined
  | some s =>
    if s = succ then
      match modbusAddress with
      | none => .error .addressUndefined
      | some addr =>
        match liveRF with
        | some (some rf) => .ok ⟨name, addr, productId, rf⟩
        | _ => .error .rfReadFailed
    else .error .unexpectedResult

/-- `ControllerSubentryFlowHandler.async_step_bind_done`. -/
def bindDoneController (bindResult : Option BindingStatus) (modbusAddress : Option Nat)
    (liveRF : Option (Option Nat)) (name : Option String) (productId : Nat) :
    Except BindDoneErr Entry :=
  bindDoneStep .OUTGOING_BINDING_COMPLETED bindResult modbusAddress liveRF name productId

/-- `AccessorySubentryFlowHandler.async_step_bind_done`. -/
def bindDoneAccessory (bindResult : Option BindingStatus) (modbusAddress : Option Nat)
    (liveRF : Option (Option Nat)) (name : Option String) (productId : Nat) :
    Except BindDoneErr Entry :=
  bindDoneStep .INCOMING_BINDING_COMPLETED bindResult modbusAddress liveRF name productId

/-- Ventilation speed values from the external pyairios constants
(`VMDVentilationSpeed`); exactly the members named in PRESET_NAMES. -/
inductive VMDVentilationSpeed where
  | OFF
  | LOW
  | MID
  | HIGH
  | OVERRIDE_LOW
  | OVERRIDE_MID
  | OVERRIDE_HIGH
  | AWAY
  | BOOST
  | AUTO
deriving DecidableEq, Repr

/-- Requested ventilation speed values from the external pyairios
constants (`VMDRequestedVentilationSpeed`). -/
inductive VMDRequestedVentilationSpeed where
  | OFF
  | LOW
  | MID
  | HIGH
  | AWAY
  | BOOST
  | AUTO
deriving DecidableEq, Repr

/-- VMD property identifiers from the external pyairios properties used by
the fan platform. -/
inductive AiriosVMDProperty where
  | CURRENT_VENTILATION_SPEED
  | REQUESTED_VENTILATION_SPEED
  | CAPABILITIES
  | OVERRIDE_TIME_SPEED_LOW
  | OVERRIDE_TIME_SPEED_MID
  | OVERRIDE_TIME_SPEED_HIGH
  | FAN_SPEED_AWAY_SUPPLY
  | FAN_SPEED_AWAY_EXHAUST
  | FAN_SPEED_LOW_SUPPLY
  | FAN_SPEED_LOW_EXHAUST
  | FAN_SPEED_MID_SUPPLY
  | FAN_SPEED_MID_EXHAUST
  | FAN_SPEED_HIGH_SUPPLY
  | FAN_SPEED_HIGH_EXHAUST
  | FILTER_RESET
deriving DecidableEq, Repr

/-- A key of a node's property mapping as a Python dict key. Python dicts
accept any hashable value as key; the fan platform looks up both single
property identifiers and 2-tuples of property identifiers, so both shapes
are represented. The data model itself keys node data by single property
identifiers only. -/
inductive NodeDataKey where
  | single (p : AiriosVMDProperty)
  | pair (p q : AiriosVMDProperty)
deriving DecidableEq, Repr

/-- True exactly on keys that are single property identifiers. -/
def isSingleKey : NodeDataKey → Bool
  | .single _ => true
  | .pair _ _ => false

/-- Provenance metadata of a property read (`ResultStatus` of pyairios):
age, source and flags, abstracted as numbers. -/
structure ResultStatus where
  age : Nat
  source : Nat
  flags : Nat
deriving DecidableEq, Repr

/-- Outcome of reading one property (`Result` of pyairios), specialized to
the ventilation-speed values the fan platform reads: an optional decoded
value and optional provenance metadata. A `Result` may have no value. -/
structure Result where
  value : Option VMDVentilationSpeed
  status : Option ResultStatus
deriving DecidableEq, Repr

/-- A node's property mapping, as an association list from Python dict
keys to results. -/
def AiriosNodeData : Type := List (NodeDataKey × Result)

/-- The snapshot produced by one full fetch (`AiriosData` of pyairios):
a mapping from modbus address to node data, plus the bridge's key. -/
structure AiriosData where
  nodes : List (Nat × AiriosNodeData)
  bridge_key : Nat

/-- Python dict lookup on a node's property mapping: first entry whose key
equals the requested key. -/
def lookupProp : AiriosNodeData → NodeDataKey → Option Result
  | [], _ => none
  | (k, r) :: rest, key => if k = key then some r else lookupProp rest key

/-- Python dict lookup of a node by modbus address in a snapshot. -/
def lookupNode : List (Nat × AiriosNodeData) → Nat → Option AiriosNodeData
  | [], _ => none
  | (a, d) :: rest, addr => if a = addr then some d else lookupNode rest addr

/-- Python exceptions that `api.fetch` may raise, split as the coordinator
splits them: AiriosException subclasses versus anything else. -/
inductive PyExc where
  | airios
  | otherExc
deriving DecidableEq, Repr

/-- What `AiriosDataUpdateCoordinator._async_update_data` can raise: the
typed UpdateFailed condition (raised from an AiriosException), or an
exception of another class escaping unchanged. -/
inductive UpdateErr where
  | updateFailed
  | passthrough (e : PyExc)
deriving DecidableEq, Repr

/-- `AiriosDataUpdateCoordinator._async_update_data`: call
`api.fetch(with_status=self.fetch_result_status)`; on AiriosException
raise UpdateFailed, on success return the snapshot unchanged. Any other
exception class is not caught and escapes as itself. `fetch` maps the
with_status flag to the fetch outcome. -/
def asyncUpdateData (fetch : Bool → Except PyExc AiriosData)
    (fetchResultStatus : Bool) : Except UpdateErr AiriosData :=
  match fetch fetchResultStatus with
  | .ok d => .ok d
  | .error .airios => .error .updateFailed
  | .error .otherExc => .error (.passthrough .otherExc)

/-- Modelled from the spec: the host DataUpdateCoordinator (external to
this repository) keeps the previously published snapshot and marks the
update as failed whenever `_async_update_data` raises, and replaces the
snapshot wholesale when it returns. The pair is (published snapshot,
last update succeeded). -/
def coordinatorStep (prev : AiriosData) (upd : Except UpdateErr AiriosData) :
    AiriosData × Bool :=
  match upd with
  | .ok d => (d, true)
  | .error _ => (prev, false)

/-- Python exceptions escaping the fan entity update path, as caught by
`_handle_coordinator_update`: TypeError and ValueError are caught, any
other exception (notably KeyError from a failed dict lookup) escapes. -/
inductive FetchErr where
  | typeError
  | valueError
  | keyError
deriving DecidableEq, Repr

/-- `AiriosEntity.fetch_result` for a fan entity: look up the node by
modbus address and the property by its identifier in the snapshot
(`data[ap]`, raising KeyError when absent), then raise ValueError when the
result is absent or has no value. The isinstance TypeError branch never
fires for a fan entity, whose description is an AiriosEntityDescription. -/
def fetch_result (data : AiriosData) (modbusAddress : Nat)
    (ap : AiriosVMDProperty) : Except FetchErr Result :=
  match lookupNode data.nodes modbusAddress with
  | none => .error .keyError
  | some node =>
    match lookupProp node (.single ap) with
    | none => .error .keyError
    | some r =>
      match r.value with
      | none => .error .valueError
      | some _ => .ok r

/-- PRESET_NAMES of fan.py, as a total map on the ventilation-speed enum
(the source dict lists every member). -/
def PRESET_NAMES : VMDVentilationSpeed → String
  | .OFF => "off"
  | .LOW => "low"
  | .MID => "medium"
  | .HIGH => "high"
  | .OVERRIDE_LOW => "low_override"
  | .OVERRIDE_MID => "medium_override"
  | .OVERRIDE_HIGH => "high_override"
  | .AWAY => "away"
  | .BOOST => "boost"
  | .AUTO => "auto"

/-- PRESET_TO_VMD_SPEED of fan.py: partial map from preset name to the
requested speed; Python raises KeyError on any other name. -/
def PRESET_TO_VMD_SPEED (preset : String) : Option VMDRequestedVentilationSpeed :=
  if preset = "off" then some .OFF
  else if preset = "low" then some .LOW
  else if preset = "medium" then some .MID
  else if preset = "high" then some .HIGH
  else if preset = "low_override" then some .LOW
  else if preset = "medium_override" then some .MID
  else if preset = "high_override" then some .HIGH
  else if preset = "away" then some .AWAY
  else if preset = "boost" then some .BOOST
  else if preset = "auto" then some .AUTO
  else none

/-- Mutable attributes of the fan entity touched by the update handler. -/
structure FanState where
  preset : Option String
  available : Bool
  extra : Option ResultStatus
deriving DecidableEq, Repr

/-- Outcome of one `_handle_coordinator_update` call: the handler either
completes normally with the updated entity state (state is still written
in the finally block), or an uncaught exception escapes, leaving the
entity state as it was. -/
inductive HandlerOutcome where
  | completed (st : FanState)
  | escaped (e : FetchErr) (st : FanState)
deriving DecidableEq, Repr

/-- `AiriosFanEntity._handle_coordinator_update`: fetch the entity's
result; on success set the preset name, availability and (when provenance
is present) the extra state attributes; TypeError and ValueError are
caught and mark the entity unavailable; KeyError is not caught and
escapes. -/
def handleCoordinatorUpdate (data : AiriosData) (modbusAddress : Nat)
    (ap : AiriosVMDProperty) (st : FanState) : HandlerOutcome :=
  match fetch_result data modbusAddress ap with
  | .error .keyError => .escaped .keyError st
  | .error .typeError => .completed { st with available := false }
  | .error .valueError => .completed { st with available := false }
  | .ok r =>
    match r.value with
    | some v =>
      .completed
        { preset := some (PRESET_NAMES v)
          available := (some (PRESET_NAMES v)).isSome
          extra :=
            match r.status with
            | some s => some s
            | none => st.extra }
    | none => .escaped .keyError st

/-- A value passed to `DeviceHandle.set`: either a plain number (override
times, fan speed percentages) or a requested ventilation speed. -/
inductive SetValue where
  | num (n : Int)
  | speed (s : VMDRequestedVentilationSpeed)
deriving DecidableEq, Repr

/-- One property write issued through the connection
(`dev.set(property, value)`). -/
structure SetCall where
  prop : AiriosVMDProperty
  val : SetValue
deriving DecidableEq, Repr

/-- The behavior of the device handle for writes: each `dev.set` call
either raises an AiriosException (error) or returns its boolean
acknowledgment. -/
def DevSet : Type := SetCall → Except Unit Bool

/-- Errors raised by the fan entity commands: all HomeAssistantError in
the source, with the distinguished "Property not supported by device"
message kept apart, plus the uncaught KeyError of a preset-name lookup. -/
inductive FanErr where
  | propertyNotSupported
  | haError
  | keyError
deriving DecidableEq, Repr

/-- Shared body of the four `async_set_preset_fan_speed_*` services for
the property pair (p, q): test the 2-tuple `(p, q)` for membership in the
node's property mapping exactly as the Python `(p, q) not in data` does
(a dict-key lookup of the tuple itself), then write the supply and the
exhaust fan speed. Returns the writes issued and the outcome. -/
def setPresetFanSpeedPair (p q : AiriosVMDProperty) (node : AiriosNodeData)
    (dev : DevSet) (supply exhaust : Int) : List SetCall × Except FanErr Bool :=
  if (lookupProp node (.pair p q)).isSome then
    match dev ⟨p, .num supply⟩ with
    | .error _ => ([⟨p, .num supply⟩], .error .haError)
    | .ok false => ([⟨p, .num supply⟩], .error .haError)
    | .ok true =>
      match dev ⟨q, .num exhaust⟩ with
      | .error _ => ([⟨p, .num supply⟩, ⟨q, .num exhaust⟩], .error .haError)
      | .ok false => ([⟨p, .num supply⟩, ⟨q, .num exhaust⟩], .error .haError)
      | .ok true => ([⟨p, .num supply⟩, ⟨q, .num exhaust⟩], .ok true)
  else ([], .error .propertyNotSupported)

/-- `AiriosFanEntity.async_set_preset_fan_speed_away`. -/
def async_set_preset_fan_speed_away (node : AiriosNodeData) (dev : DevSet)
    (supply exhaust : Int) : List SetCall × Except FanErr Bool :=
  setPresetFanSpeedPair .FAN_SPEED_AWAY_SUPPLY .FAN_SPEED_AWAY_EXHAUST node dev supply exhaust

/-- `AiriosFanEntity.async_set_preset_fan_speed_low`. -/
def async_set_preset_fan_speed_low (node : AiriosNodeData) (dev : DevSet)
    (supply exhaust : Int) : List SetCall × Except FanErr Bool :=
  setPresetFanSpeedPair .FAN_SPEED_LOW_SUPPLY .FAN_SPEED_LOW_EXHAUST node dev supply exhaust

/-- `AiriosFanEntity.async_set_preset_fan_speed_medium`. -/
def async_set_preset_fan_speed_medium (node : AiriosNodeData) (dev : DevSet)
    (supply exhaust : Int) : List SetCall × Except FanErr Bool :=
  setPresetFanSpeedPair .FAN_SPEED_MID_SUPPLY .FAN_SPEED_MID_EXHAUST node dev supply exhaust

/-- `AiriosFanEntity.async_set_preset_fan_speed_high`. -/
def async_set_preset_fan_speed_high (node : AiriosNodeData) (dev : DevSet)
    (supply exhaust : Int) : List SetCall × Except FanErr Bool :=
  setPresetFanSpeedPair .FAN_SPEED_HIGH_SUPPLY .FAN_SPEED_HIGH_EXHAUST node dev supply exhaust

/-- `AiriosFanEntity.is_on`: the preset mode is set and differs from
"off". -/
def is_on (st : FanState) : Bool :=
  match st.preset with
  | none => false
  | some p => p ≠ "off"

/-- The single write `_set_preset_mode_internal` issues for a preset: an
override-time write of 60 minutes for the three override presets,
otherwise the requested-ventilation-speed write. -/
def presetCall (preset : String) (vmd : VMDRequestedVentilationSpeed) : SetCall :=
  if preset = "low_override" then ⟨.OVERRIDE_TIME_SPEED_LOW, .num 60⟩
  else if preset = "medium_override" then ⟨.OVERRIDE_TIME_SPEED_MID, .num 60⟩
  else if preset = "high_override" then ⟨.OVERRIDE_TIME_SPEED_HIGH, .num 60⟩
  else ⟨.REQUESTED_VENTILATION_SPEED, .speed vmd⟩

/-- `AiriosFanEntity._set_preset_mode_internal`: return False without any
write when the requested preset equals the current one; otherwise look up
the requested speed (KeyError on an unknown preset name), issue the
single appropriate write via `presetCall` and return its acknowledgment;
an AiriosException becomes a HomeAssistantError. -/
def setPresetModeInternal (st : FanState) (preset : String) (dev : DevSet) :
    List SetCall × Except FanErr Bool :=
  if st.preset = some preset then ([], .ok false)
  else
    match PRESET_TO_VMD_SPEED preset with
    | none => ([], .error .keyError)
    | some vmd =>
      match dev (presetCall preset vmd) with
      | .ok b => ([presetCall preset vmd], .ok b)
      | .error _ => ([presetCall preset vmd], .error .haError)

/-- `AiriosFanEntity._turn_on_internal`: no-op returning False when the
fan is already on, otherwise set the requested preset (defaulting to
"medium"); the percentage argument is unused by the source. -/
def turnOnInternal (st : FanState) (presetMode : Option String) (dev : DevSet) :
    List SetCall × Except FanErr Bool :=
  if is_on st then ([], .ok false)
  else setPresetModeInternal st (presetMode.getD (PRESET_NAMES .MID)) dev

/-- `AiriosFanEntity._turn_off_internal`: no-op returning False when the
fan is already off, otherwise set the "off" preset. -/
def turnOffInternal (st : FanState) (dev : DevSet) : List SetCall × Except FanErr Bool :=
  if is_on st then setPresetModeInternal st (PRESET_NAMES .OFF) dev
  else ([], .ok false)

/-- Wraps an internal action the way the `async_*` entry points do: an
out-of-band coordinator refresh is requested exactly when the internal
action returned True. The triple is (writes issued, escaped error if any,
refresh requested). -/
def withRefresh (r : List SetCall × Except FanErr Bool) :
    List SetCall × Option FanErr × Bool :=
  match r with
  | (cs, .ok b) => (cs, none, b)
  | (cs, .error e) => (cs, some e, false)

/-- `AiriosFanEntity.async_set_preset_mode`. -/
def async_set_preset_mode (st : FanState) (preset : String) (dev : DevSet) :
    List SetCall × Option FanErr × Bool :=
  withRefresh (setPresetModeInternal st preset dev)

/-- `AiriosFanEntity.async_turn_on`. -/
def async_turn_on (st : FanState) (presetMode : Option String) (dev : DevSet) :
    List SetCall × Option FanErr × Bool :=
  withRefresh (turnOnInternal st presetMode dev)

/-- `AiriosFanEntity.async_turn_off`. -/
def async_turn_off (st : FanState) (dev : DevSet) :
    List SetCall × Option FanErr × Bool :=
  withRefresh (turnOffInternal st dev)

/-- A bind-status result whose result object is present and carries a
value: the shape the poll loop accepts. -/
def okStatus (s : BindingStatus) : Option (Option BindingStatus) := some (some s)

/-- Empty snapshot around a bridge at address 1, used as a concrete
input. -/
def emptyData : AiriosData := ⟨[], 1⟩

/-- A fetch that always raises an AiriosException. -/
def fetchFail : Bool → Except PyExc AiriosData := fun _ => .error .airios

/-- Snapshot holding one node at modbus address 2 with an empty property
mapping, used as a concrete input. -/
def cexData : AiriosData := ⟨[(2, ([] : AiriosNodeData))], 1⟩

/-- Snapshot holding one node at modbus address 2 whose ventilation-speed
property is present but has no value, used as a concrete input. -/
def noValueData : AiriosData :=
  ⟨[(2, ([(.single .CURRENT_VENTILATION_SPEED, ⟨none, none⟩)] : AiriosNodeData))], 1⟩

/-- A fan state with no preset and the entity available, used as a
concrete input. -/
def st0 : FanState := ⟨none, true, none⟩

/-- A device handle that acknowledges every write, used as a concrete
input. -/
def dev0 : DevSet := fun _ => .ok true

/-- Node data listing every fan-speed property under its own single
property identifier, each with a decoded value, used as a concrete
input. -/
def node9 : AiriosNodeData :=
  [ (.single .FAN_SPEED_AWAY_SUPPLY, ⟨some .AWAY, none⟩)
  , (.single .FAN_SPEED_AWAY_EXHAUST, ⟨some .AWAY, none⟩)
  , (.single .FAN_SPEED_LOW_SUPPLY, ⟨some .LOW, none⟩)
  , (.single .FAN_SPEED_LOW_EXHAUST, ⟨some .LOW, none⟩)
  , (.single .FAN_SPEED_MID_SUPPLY, ⟨some .MID, none⟩)
  , (.single .FAN_SPEED_MID_EXHAUST, ⟨some .MID, none⟩)
  , (.single .FAN_SPEED_HIGH_SUPPLY, ⟨some .HIGH, none⟩)
  , (.single .FAN_SPEED_HIGH_EXHAUST, ⟨some .HIGH, none⟩) ]

theorem countP_replicate (p : Effect → Bool) (a : Effect) (n : Nat) :
    (List.replicate n a).countP p = if p a then n else 0 := by
  induction n with
  | zero => simp
  | succ n ih =>
    rw [List.replicate_succ, List.countP_cons, ih]
    cases h : p a <;> simp [h]

theorem pollLoop_all_keep (keep : BindingStatus)
    (polls : Nat → Option (Option BindingStatus)) :
    ∀ fuel start st, fuel ≠ 0 →
    (∀ i, i < fuel → polls (start + i) = some (some keep)) →
    pollLoop keep polls start fuel st = (start + fuel, .done keep) := by
  intro fuel
  induction fuel with
  | zero => intro start st h _; exact absurd rfl h
  | succ n ih =>
    intro start st _ hp
    have h0 : polls start = some (some keep) := by
      simpa using hp 0 (Nat.succ_pos n)
    by_cases hn : n = 0
    · subst hn
      simp [pollLoop, h0]
    · have hrec := ih (start + 1) keep hn
        (fun i hi => by
          have h2 := hp (i + 1) (by omega)
          rwa [show start + (i + 1) = start + 1 + i by omega] at h2)
      simp only [pollLoop, h0, if_true]
      rw [hrec, show start + 1 + n = start + (n + 1) by omega]

theorem pollLoop_first_break (keep : BindingStatus)
    (polls : Nat → Option (Option BindingStatus)) :
    ∀ k fuel start st s, k < fuel →
    (∀ i, i < k → polls (start + i) = some (some keep)) →
    polls (start + k) = some (some s) → s ≠ keep →
    pollLoop keep polls start fuel st = (start + k + 1, .done s) := by
  intro k
  induction k with
  | zero =>
    intro fuel start st s hk _ hs hne
    obtain ⟨m, rfl⟩ : ∃ m, fuel = m + 1 := ⟨fuel - 1, by omega⟩
    rw [Nat.add_zero] at hs
    simp only [pollLoop, hs]
    rw [if_neg hne]
  | succ k ih =>
    intro fuel start st s hk hkeep hs hne
    obtain ⟨m, rfl⟩ : ∃ m, fuel = m + 1 := ⟨fuel - 1, by omega⟩
    have h0 : polls start = some (some keep) := by
      simpa using hkeep 0 (Nat.succ_pos k)
    have hrec := ih m (start + 1) keep s (by omega)
      (fun i hi => by
        have h2 := hkeep (i + 1) (by omega)
        rwa [show start + (i + 1) = start + 1 + i by omega] at h2)
      (by rwa [show start + 1 + k = start + (k + 1) by omega])
      hne
    simp only [pollLoop, h0, if_true]
    rw [hrec, show start + 1 + k + 1 = start + (k + 1) + 1 by omega]

theorem removeAll_eq_filter :
    ∀ (ns addrs : List Nat), ns.Nodup → addrs.Nodup → (∀ a ∈ ns, a ∈ addrs) →
    removeAll addrs ns = .ok (addrs.filter (fun a => decide (a ∉ ns))) := by
  intro ns
  induction ns with
  | nil => intro addrs _ _ _; simp [removeAll]
  | cons n ns ih =>
    intro addrs hns haddrs hmem
    have hn : n ∈ addrs := hmem n (List.mem_cons_self n ns)
    have hnodup_ns : ns.Nodup := hns.of_cons
    have hn_notin : n ∉ ns := (List.nodup_cons.mp hns).1
    have herase_nodup : (addrs.erase n).Nodup := haddrs.erase n
    have hmem2 : ∀ a ∈ ns, a ∈ addrs.erase n := by
      intro a ha
      have hne : a ≠ n := fun h => hn_notin (h ▸ ha)
      exact (List.mem_erase_of_ne hne).mpr (hmem a (List.mem_cons_of_mem n ha))
    simp only [removeAll, removeElem, if_pos hn]
    rw [ih (addrs.erase n) hnodup_ns herase_nodup hmem2]
    congr 1
    rw [haddrs.erase_eq_filter n, List.filter_filter]
    apply List.filter_congr
    intro a _
    by_cases h1 : a = n <;> by_cases h2 : a ∈ ns <;>
      simp [h1, h2, List.mem_cons]

theorem allocate_eq_filter (nodes : List Nat) (hnd : nodes.Nodup)
    (hrange : ∀ a ∈ nodes, 2 ≤ a ∧ a ≤ 199) :
    allocate nodes =
      match (List.range' 2 198).filter (fun a => decide (a ∉ nodes)) with
      | [] => .error .indexError
      | a :: _ => .ok a := by
  have hmem : ∀ a ∈ nodes, a ∈ List.range' 2 198 := by
    intro a ha
    rw [List.mem_range'_1]
    have := hrange a ha
    omega
  rw [allocate, removeAll_eq_filter nodes (List.range' 2 198) hnd
    (List.nodup_range' 2 198) hmem]
  cases hF : (List.range' 2 198).filter (fun a => decide (a ∉ nodes)) with
  | nil => rfl
  | cons a t => rfl

theorem filter_range'_head (p : Nat → Bool) :
    ∀ n s a t, (List.range' s n).filter p = a :: t →
    p a = true ∧ s ≤ a ∧ a < s + n ∧ ∀ j, s ≤ j → j < a → p j = false := by
  intro n
  induction n with
  | zero => intro s a t h; simp at h
  | succ n ih =>
    intro s a t h
    rw [List.range'_succ, List.filter_cons] at h
    by_cases hps : p s = true
    · rw [if_pos hps] at h
      injection h with h1 h2
      subst h1
      exact ⟨hps, Nat.le_refl s, by omega, fun j hj1 hj2 => by omega⟩
    · rw [if_neg hps] at h
      obtain ⟨hpa, hsa, han, hmin⟩ := ih (s + 1) a t h
      have hps2 : p s = false := by
        cases hval : p s
        · rfl
        · exact absurd hval hps
      refine ⟨hpa, by omega, by omega, fun j hj1 hj2 => ?_⟩
      by_cases hj : j = s
      · subst hj; exact hps2
      · exact hmin j (by omega) hj2

theorem filter_range'_cons (p : Nat → Bool) :
    ∀ n s a, p a = true → s ≤ a → a < s + n →
    (∀ j, s ≤ j → j < a → p j = false) →
    ∃ t, (List.range' s n).filter p = a :: t := by
  intro n
  induction n with
  | zero => intro s a _ h1 h2 _; omega
  | succ n ih =>
    intro s a hpa hsa han hmin
    rw [List.range'_succ, List.filter_cons]
    by_cases hsa2 : a = s
    · subst hsa2
      rw [if_pos hpa]
      exact ⟨_, rfl⟩
    · have hps : p s = false := hmin s (Nat.le_refl s) (by omega)
      rw [if_neg (by simp [hps])]
      exact ih (s + 1) a hpa (by omega) (by omega)
        (fun j hj1 hj2 => hmin j (by omega) hj2)

theorem lookupProp_pair_none (node : AiriosNodeData) (a b : AiriosVMDProperty)
    (hkeys : node.all (fun e => isSingleKey e.1) = true) :
    lookupProp node (.pair a b) = none := by
  induction node with
  | nil => rfl
  | cons e rest ih =>
    obtain ⟨k, r⟩ := e
    rw [List.all_cons, Bool.and_eq_true] at hkeys
    rw [lookupProp]
    have hk : k ≠ NodeDataKey.pair a b := by
      intro h
      subst h
      simp [isSingleKey] at hkeys
    rw [if_neg hk]
    exact ih hkeys.2

theorem doBind_trace_all_keep (keep succ : BindingStatus) (hne : keep ≠ succ)
    (fuel : Nat) (hf : fuel ≠ 0) (env : BindEnv) (addr : Nat)
    (halloc : allocate env.nodes = .ok addr) (hack : env.bindAck = true)
    (hp : ∀ i, i < fuel → env.polls i = some (some keep)) :
    doBind keep succ fuel env =
      (Effect.bindCmd addr :: (List.replicate fuel .pollStatus ++ [.unbind addr]),
        .error (.bindFailed keep)) := by
  have hloop := pollLoop_all_keep keep env.polls fuel 0 .NOT_AVAILABLE hf
    (fun i hi => by simpa using hp i hi)
  rw [Nat.zero_add] at hloop
  rw [doBind, halloc]
  simp only [hack, if_true, hloop]
  rw [if_neg hne]

theorem doBind_trace_break (keep succ : BindingStatus) (fuel : Nat)
    (env : BindEnv) (addr : Nat) (k : Nat) (s : BindingStatus)
    (halloc : allocate env.nodes = .ok addr) (hack : env.bindAck = true)
    (hk : k < fuel) (hkeep : ∀ i, i < k → env.polls i = some (some keep))
    (hs : env.polls k = some (some s)) (hne : s ≠ keep) :
    doBind keep succ fuel env =
      if s = succ then
        (Effect.bindCmd addr :: List.replicate (k + 1) .pollStatus, .ok (addr, s))
      else
        (Effect.bindCmd addr :: (List.replicate (k + 1) .pollStatus ++ [.unbind addr]),
          .error (.bindFailed s)) := by
  have hloop := pollLoop_first_break keep env.polls k fuel 0 .NOT_AVAILABLE s hk
    (fun i hi => by simpa using hkeep i hi) (by simpa using hs) hne
  rw [Nat.zero_add] at hloop
  rw [doBind, halloc]
  simp only [hack, if_true, hloop]

theorem countPolls_trace (addr : Nat) (n : Nat) (rest : List Effect)
    (hrest : countPolls rest = 0) :
    countPolls (Effect.bindCmd addr :: (List.replicate n .pollStatus ++ rest)) = n := by
  rw [countPolls] at hrest ⊢
  rw [List.countP_cons, List.countP_append, countP_replicate]
  simp [isPoll, hrest]

theorem countPolls_unbind_tail (addr : Nat) : countPolls [Effect.unbind addr] = 0 := by
  simp [countPolls, isPoll]

theorem setPresetModeInternal_ok_true (st : FanState) (preset : String)
    (dev : DevSet) (cs : List SetCall)
    (h : setPresetModeInternal st preset dev = (cs, .ok true)) : cs ≠ [] := by
  rw [setPresetModeInternal] at h
  split at h
  · simp at h
  · split at h
    · simp at h
    · split at h
      · rw [Prod.mk.injEq] at h
        obtain ⟨h1, _⟩ := h
        rw [← h1]
        simp
      · simp at h

/-- C3: the address allocator, run on the live node list, returns the
smallest address in the inclusive range [2,199] that is not the bus
address of any listed node; in particular, for every node list whose
occupied addresses are exactly set 2, 3, 5, it returns 4. The node list
carries pairwise-distinct addresses within [2,199], per the data model's
bus-address uniqueness invariant. -/
theorem spec_C3 (nodes : List Nat) (hnd : nodes.Nodup)
    (hrange : ∀ a ∈ nodes, 2 ≤ a ∧ a ≤ 199) :
    (∀ k, allocate nodes = .ok k ↔
      (2 ≤ k ∧ k ≤ 199 ∧ k ∉ nodes ∧ ∀ j, 2 ≤ j → j < k → j ∈ nodes)) ∧
    (nodes.toFinset = {2, 3, 5} → allocate nodes = .ok 4) := by
  have halloc := allocate_eq_filter nodes hnd hrange
  have key : ∀ k, allocate nodes = .ok k ↔
      (2 ≤ k ∧ k ≤ 199 ∧ k ∉ nodes ∧ ∀ j, 2 ≤ j → j < k → j ∈ nodes) := by
    intro k
    constructor
    · intro hk
      rw [halloc] at hk
      cases hF : (List.range' 2 198).filter (fun a => decide (a ∉ nodes)) with
      | nil => rw [hF] at hk; exact absurd hk (by simp)
      | cons a t =>
        rw [hF] at hk
        have hk2 : Except.ok (ε := PyErr) a = Except.ok k := hk
        injection hk2 with hak
        subst hak
        obtain ⟨hpa, hsa, han, hmin⟩ := filter_range'_head _ 198 2 a t hF
        refine ⟨hsa, by omega, of_decide_eq_true hpa, fun j hj1 hj2 => ?_⟩
        have := of_decide_eq_false (hmin j hj1 hj2)
        exact not_not.mp this
    · rintro ⟨h2, h199, hnot, hmin⟩
      obtain ⟨t, hF⟩ := filter_range'_cons (fun a => decide (a ∉ nodes)) 198 2 k
        (decide_eq_true hnot) h2 (by omega)
        (fun j hj1 hj2 => decide_eq_false (not_not_intro (hmin j hj1 hj2)))
      rw [halloc, hF]
  refine ⟨key, fun hts => ?_⟩
  have hmem : ∀ a, a ∈ nodes ↔ (a = 2 ∨ a = 3 ∨ a = 5) := by
    intro a
    rw [← List.mem_toFinset, hts]
    simp
  refine (key 4).mpr ⟨by omega, by omega, ?_, ?_⟩
  · rw [hmem]
    omega
  · intro j hj1 hj2
    have hj : j = 2 ∨ j = 3 := by omega
    rcases hj with rfl | rfl
    · exact (hmem 2).mpr (Or.inl rfl)
    · exact (hmem 3).mpr (Or.inr (Or.inl rfl))

/-- Witness for C3 at the concrete node list [2, 3, 5]. -/
theorem spec_C3_witness : allocate [2, 3, 5] = .ok 4 :=
  (spec_C3 [2, 3, 5] (by decide) (by decide)).2 (by decide)

/-- C6: when every address of [2,199] is occupied by a listed node, the
allocator fails without returning an address (the empty-list indexing
error, surfaced as the no-addresses-available failure), and `_do_bind`
stops there: its trace is empty, so no bridge-side command was sent and no
cleanup is needed. -/
theorem spec_C6 (nodes : List Nat) (hnd : nodes.Nodup)
    (hrange : ∀ a ∈ nodes, 2 ≤ a ∧ a ≤ 199)
    (hfull : ∀ k, 2 ≤ k → k ≤ 199 → k ∈ nodes) :
    allocate nodes = .error .indexError ∧
    ∀ ack polls,
      doBindController ⟨nodes, ack, polls⟩ = ([], .error (.allocFailed .indexError)) ∧
      doBindAccessory ⟨nodes, ack, polls⟩ = ([], .error (.allocFailed .indexError)) := by
  have hempty : (List.range' 2 198).filter (fun a => decide (a ∉ nodes)) = [] := by
    rw [List.filter_eq_nil_iff]
    intro a ha
    rw [List.mem_range'_1] at ha
    simp only [decide_eq_true_eq, Decidable.not_not]
    exact hfull a (by omega) (by omega)
  have halloc : allocate nodes = .error .indexError := by
    rw [allocate_eq_filter nodes hnd hrange, hempty]
  refine ⟨halloc, fun ack polls => ?_⟩
  constructor
  · rw [doBindController, doBind]
    simp only [halloc]
  · rw [doBindAccessory, doBind]
    simp only [halloc]

/-- Witness for C6 at the fully occupied node list [2..199]. -/
theorem spec_C6_witness :
    allocate (List.range' 2 198) = .error .indexError ∧
    doBindController ⟨List.range' 2 198, true, fun _ => none⟩ =
      ([], .error (.allocFailed .indexError)) := by
  have h := spec_C6 (List.range' 2 198) (List.nodup_range' 2 198)
    (by
      intro a ha
      rw [List.mem_range'_1] at ha
      omega)
    (by
      intro k h1 h2
      rw [List.mem_range'_1]
      omega)
  exact ⟨h.1, (h.2 true (fun _ => none)).1⟩

/-- C1 (counterexample): when every poll keeps the loop going, the
controller bind performs 99 status polls, not the 100 the claim states,
and the accessory bind performs 499, not 500: `range(1, 100)` and
`range(1, 500)` drop one iteration. -/
theorem spec_C1_counterexample :
    countPolls (doBindController ctrlEnvAllInit).1 = 99 ∧
    ¬ countPolls (doBindController ctrlEnvAllInit).1 = 100 ∧
    countPolls (doBindAccessory accEnvAllActive).1 = 499 ∧
    ¬ countPolls (doBindAccessory accEnvAllActive).1 = 500 := by
  have hc : doBindController ctrlEnvAllInit =
      (Effect.bindCmd 2 :: (List.replicate 99 .pollStatus ++ [.unbind 2]),
        .error (.bindFailed .OUTGOING_BINDING_INITIALIZED)) := by
    rw [doBindController]
    exact doBind_trace_all_keep _ _ (by decide) 99 (by decide) ctrlEnvAllInit 2 rfl rfl
      (fun i _ => rfl)
  have ha : doBindAccessory accEnvAllActive =
      (Effect.bindCmd 2 :: (List.replicate 499 .pollStatus ++ [.unbind 2]),
        .error (.bindFailed .INCOMING_BINDING_ACTIVE)) := by
    rw [doBindAccessory]
    exact doBind_trace_all_keep _ _ (by decide) 499 (by decide) accEnvAllActive 2 rfl rfl
      (fun i _ => rfl)
  rw [hc, ha]
  have h99 := countPolls_trace 2 99 [Effect.unbind 2] (countPolls_unbind_tail 2)
  have h499 := countPolls_trace 2 499 [Effect.unbind 2] (countPolls_unbind_tail 2)
  rw [h99, h499]
  exact ⟨rfl, by omega, rfl, by omega⟩

/-- C1 (amended): with the loop bounds the code actually uses, the
controller bind performs exactly 99 status polls (one per 250 ms tick)
when every poll returns OUTGOING_BINDING_INITIALIZED and then gives up
with that status, and the accessory bind performs exactly 499 polls when
every poll returns INCOMING_BINDING_ACTIVE; each loop continues exactly
while the status equals its in-progress status and stops at the first
poll returning any other status. -/
theorem spec_C1 (env : BindEnv) (addr : Nat)
    (halloc : allocate env.nodes = .ok addr) (hack : env.bindAck = true) :
    ((∀ i, i < 99 → env.polls i = some (some .OUTGOING_BINDING_INITIALIZED)) →
      countPolls (doBindController env).1 = 99 ∧
      (doBindController env).2 = .error (.bindFailed .OUTGOING_BINDING_INITIALIZED)) ∧
    (∀ k s, k < 99 →
      (∀ i, i < k → env.polls i = some (some .OUTGOING_BINDING_INITIALIZED)) →
      env.polls k = some (some s) → s ≠ .OUTGOING_BINDING_INITIALIZED →
      countPolls (doBindController env).1 = k + 1) ∧
    ((∀ i, i < 499 → env.polls i = some (some .INCOMING_BINDING_ACTIVE)) →
      countPolls (doBindAccessory env).1 = 499 ∧
      (doBindAccessory env).2 = .error (.bindFailed .INCOMING_BINDING_ACTIVE)) ∧
    (∀ k s, k < 499 →
      (∀ i, i < k → env.polls i = some (some .INCOMING_BINDING_ACTIVE)) →
      env.polls k = some (some s) → s ≠ .INCOMING_BINDING_ACTIVE →
      countPolls (doBindAccessory env).1 = k + 1) := by
  refine ⟨fun hp => ?_, fun k s hk hkeep hs hne => ?_, fun hp => ?_,
    fun k s hk hkeep hs hne => ?_⟩
  · rw [doBindController,
      doBind_trace_all_keep _ _ (by decide) 99 (by decide) env addr halloc hack hp]
    exact ⟨countPolls_trace addr 99 [Effect.unbind addr] (countPolls_unbind_tail addr), rfl⟩
  · rw [doBindController,
      doBind_trace_break _ _ 99 env addr k s halloc hack hk hkeep hs hne]
    by_cases hss : s = BindingStatus.OUTGOING_BINDING_COMPLETED
    · rw [if_pos hss]
      have := countPolls_trace addr (k + 1) [] (by decide)
      simpa using this
    · rw [if_neg hss]
      exact countPolls_trace addr (k + 1) [Effect.unbind addr] (countPolls_unbind_tail addr)
  · rw [doBindAccessory,
      doBind_trace_all_keep _ _ (by decide) 499 (by decide) env addr halloc hack hp]
    exact ⟨countPolls_trace addr 499 [Effect.unbind addr] (countPolls_unbind_tail addr), rfl⟩
  · rw [doBindAccessory,
      doBind_trace_break _ _ 499 env addr k s halloc hack hk hkeep hs hne]
    by_cases hss : s = BindingStatus.INCOMING_BINDING_COMPLETED
    · rw [if_pos hss]
      have := countPolls_trace addr (k + 1) [] (by decide)
      simpa using this
    · rw [if_neg hss]
      exact countPolls_trace addr (k + 1) [Effect.unbind addr] (countPolls_unbind_tail addr)

/-- C2: whenever the bind command was accepted and the status-poll loop
ends with a final status other than the success status, the trace contains
exactly one unbind, at the very address the allocator produced, and the
session fails carrying that last observed status; when the loop ends with
the success status no unbind is issued and the session succeeds with the
allocated address. -/
theorem spec_C2 (env : BindEnv) (addr : Nat)
    (halloc : allocate env.nodes = .ok addr) (hack : env.bindAck = true) :
    (∀ n s,
      pollLoop .OUTGOING_BINDING_INITIALIZED env.polls 0 99 .NOT_AVAILABLE = (n, .done s) →
      (s ≠ .OUTGOING_BINDING_COMPLETED →
        countUnbinds (doBindController env).1 = 1 ∧
        Effect.unbind addr ∈ (doBindController env).1 ∧
        (doBindController env).2 = .error (.bindFailed s)) ∧
      (s = .OUTGOING_BINDING_COMPLETED →
        countUnbinds (doBindController env).1 = 0 ∧
        (doBindController env).2 = .ok (addr, s))) ∧
    (∀ n s,
      pollLoop .INCOMING_BINDING_ACTIVE env.polls 0 499 .NOT_AVAILABLE = (n, .done s) →
      (s ≠ .INCOMING_BINDING_COMPLETED →
        countUnbinds (doBindAccessory env).1 = 1 ∧
        Effect.unbind addr ∈ (doBindAccessory env).1 ∧
        (doBindAccessory env).2 = .error (.bindFailed s)) ∧
      (s = .INCOMING_BINDING_COMPLETED →
        countUnbinds (doBindAccessory env).1 = 0 ∧
        (doBindAccessory env).2 = .ok (addr, s))) := by
  constructor
  · intro n s hloop
    have hC : doBind .OUTGOING_BINDING_INITIALIZED .OUTGOING_BINDING_COMPLETED 99 env =
        if s = .OUTGOING_BINDING_COMPLETED then
          (Effect.bindCmd addr :: List.replicate n .pollStatus, .ok (addr, s))
        else
          (Effect.bindCmd addr :: (List.replicate n .pollStatus ++ [.unbind addr]),
            .error (.bindFailed s)) := by
      rw [doBind, halloc]
      simp only [hack, if_true, hloop]
    constructor
    · intro hne
      rw [doBindController, hC, if_neg hne]
      refine ⟨?_, by simp, rfl⟩
      simp [countUnbinds, List.countP_cons, List.countP_append, countP_replicate, isUnbind]
    · intro heq
      rw [doBindController, hC, if_pos heq]
      refine ⟨?_, rfl⟩
      simp [countUnbinds, List.countP_cons, countP_replicate, isUnbind]
  · intro n s hloop
    have hA : doBind .INCOMING_BINDING_ACTIVE .INCOMING_BINDING_COMPLETED 499 env =
        if s = .INCOMING_BINDING_COMPLETED then
          (Effect.bindCmd addr :: List.replicate n .pollStatus, .ok (addr, s))
        else
          (Effect.bindCmd addr :: (List.replicate n .pollStatus ++ [.unbind addr]),
            .error (.bindFailed s)) := by
      rw [doBind, halloc]
      simp only [hack, if_true, hloop]
    constructor
    · intro hne
      rw [doBindAccessory, hA, if_neg hne]
      refine ⟨?_, by simp, rfl⟩
      simp [countUnbinds, List.countP_cons, List.countP_append, countP_replicate, isUnbind]
    · intro heq
      rw [doBindAccessory, hA, if_pos heq]
      refine ⟨?_, rfl⟩
      simp [countUnbinds, List.countP_cons, countP_replicate, isUnbind]

/-- Witness for C2 at a run whose first poll reports the non-success
status NOT_AVAILABLE, and at a run whose first poll reports completion. -/
theorem spec_C2_witness :
    (countUnbinds (doBindController ⟨[], true, fun _ => some (some (.OTHER 7))⟩).1 = 1 ∧
      Effect.unbind 2 ∈ (doBindController ⟨[], true, fun _ => some (some (.OTHER 7))⟩).1 ∧
      (doBindController ⟨[], true, fun _ => some (some (.OTHER 7))⟩).2 =
        .error (.bindFailed (.OTHER 7))) ∧
    (countUnbinds (doBindAccessory ⟨[], true,
        fun _ => some (some .INCOMING_BINDING_COMPLETED)⟩).1 = 0 ∧
      (doBindAccessory ⟨[], true, fun _ => some (some .INCOMING_BINDING_COMPLETED)⟩).2 =
        .ok (2, .INCOMING_BINDING_COMPLETED)) :=
  ⟨((spec_C2 ⟨[], true, fun _ => some (some (.OTHER 7))⟩ 2 rfl rfl).1
      1 (.OTHER 7) rfl).1 (by decide),
   ((spec_C2 ⟨[], true, fun _ => some (some .INCOMING_BINDING_COMPLETED)⟩ 2 rfl rfl).2
      1 .INCOMING_BINDING_COMPLETED rfl).2 rfl⟩

/-- C4: unbind is never invoked on the two pre-binding failure paths: a
falsy bind-command acknowledgment ends the session as failed with only
the bind command in the trace, and a status poll with an absent result or
absent value ends the session as failed with no unbind in the trace. -/
theorem spec_C4 (env : BindEnv) (addr : Nat)
    (halloc : allocate env.nodes = .ok addr) :
    (env.bindAck = false →
      doBindController env = ([.bindCmd addr], .error .bindCmdRejected) ∧
      doBindAccessory env = ([.bindCmd addr], .error .bindCmdRejected)) ∧
    (env.bindAck = true →
      (∀ n,
        pollLoop .OUTGOING_BINDING_INITIALIZED env.polls 0 99 .NOT_AVAILABLE =
          (n, .statusError) →
        countUnbinds (doBindController env).1 = 0 ∧
        (doBindController env).2 = .error .statusReadFailed) ∧
      (∀ n,
        pollLoop .INCOMING_BINDING_ACTIVE env.polls 0 499 .NOT_AVAILABLE =
          (n, .statusError) →
        countUnbinds (doBindAccessory env).1 = 0 ∧
        (doBindAccessory env).2 = .error .statusReadFailed)) := by
  constructor
  · intro hackf
    constructor
    · rw [doBindController, doBind, halloc, hackf]
      exact rfl
    · rw [doBindAccessory, doBind, halloc, hackf]
      exact rfl
  · intro hack
    constructor
    · intro n hloop
      have hC : doBind .OUTGOING_BINDING_INITIALIZED .OUTGOING_BINDING_COMPLETED 99 env =
          (Effect.bindCmd addr :: List.replicate n .pollStatus,
            .error .statusReadFailed) := by
        rw [doBind, halloc]
        simp only [hack, if_true, hloop]
      rw [doBindController, hC]
      refine ⟨?_, rfl⟩
      simp [countUnbinds, List.countP_cons, countP_replicate, isUnbind]
    · intro n hloop
      have hA : doBind .INCOMING_BINDING_ACTIVE .INCOMING_BINDING_COMPLETED 499 env =
          (Effect.bindCmd addr :: List.replicate n .pollStatus,
            .error .statusReadFailed) := by
        rw [doBind, halloc]
        simp only [hack, if_true, hloop]
      rw [doBindAccessory, hA]
      refine ⟨?_, rfl⟩
      simp [countUnbinds, List.countP_cons, countP_replicate, isUnbind]

/-- Witness for C4 at a rejected bind command and at a failed status
poll. -/
theorem spec_C4_witness :
    doBindController ⟨[], false, fun _ => none⟩ = ([.bindCmd 2], .error .bindCmdRejected) ∧
    (countUnbinds (doBindController ⟨[], true, fun _ => none⟩).1 = 0 ∧
      (doBindController ⟨[], true, fun _ => none⟩).2 = .error .statusReadFailed) :=
  ⟨((spec_C4 ⟨[], false, fun _ => none⟩ 2 rfl).1 rfl).1,
   ((spec_C4 ⟨[], true, fun _ => none⟩ 2 rfl).2 rfl).1 1 rfl⟩

/-- Witness for C1 at a run whose first poll already reports completion. -/
theorem spec_C1_witness :
    countPolls (doBindController ⟨[], true,
      fun _ => some (some .OUTGOING_BINDING_COMPLETED)⟩).1 = 1 := by
  have h := spec_C1 ⟨[], true, fun _ => some (some .OUTGOING_BINDING_COMPLETED)⟩ 2
    rfl rfl
  exact h.2.1 0 .OUTGOING_BINDING_COMPLETED (by decide) (fun i hi => absurd hi (by omega))
    rfl (by decide)

/-- C5: the coordinator's refresh raises the typed UpdateFailed condition
exactly when the fetch raises an AiriosException; on success it returns
exactly the snapshot fetch produced for the configured
fetch_result_status flag; the AiriosException itself never escapes, and
under the host coordinator contract the previously published snapshot
stays in place after a failed refresh. -/
theorem spec_C5 (fetch : Bool → Except PyExc AiriosData) (flag : Bool) :
    (asyncUpdateData fetch flag = .error .updateFailed ↔ fetch flag = .error .airios) ∧
    (∀ d, asyncUpdateData fetch flag = .ok d ↔ fetch flag = .ok d) ∧
    (asyncUpdateData fetch flag ≠ .error (.passthrough .airios)) ∧
    (∀ prev, fetch flag = .error .airios →
      coordinatorStep prev (asyncUpdateData fetch flag) = (prev, false)) := by
  have hcases :
      asyncUpdateData fetch flag =
        match fetch flag with
        | .ok d => .ok d
        | .error .airios => .error .updateFailed
        | .error .otherExc => .error (.passthrough .otherExc) := rfl
  cases hf : fetch flag with
  | ok d =>
    rw [hcases, hf]
    exact ⟨by simp, fun d2 => by simp, by simp, fun prev hprev => by simp at hprev⟩
  | error e =>
    cases e with
    | airios =>
      rw [hcases, hf]
      exact ⟨by simp, fun d2 => by simp, by simp, fun prev _ => rfl⟩
    | otherExc =>
      rw [hcases, hf]
      refine ⟨by simp, fun d2 => by simp, by simp, fun prev hprev => ?_⟩
      exact absurd hprev (by simp)

/-- Witness for C5 at a fetch that always raises an AiriosException. -/
theorem spec_C5_witness :
    coordinatorStep emptyData (asyncUpdateData fetchFail true) = (emptyData, false) :=
  (spec_C5 fetchFail true).2.2.2 emptyData rfl

/-- C7: after a successful bind, the bind-done step fails with the
RF-read error whenever the live read-back of the new node's RF address
yields an absent result or an absent value, and otherwise creates an
entry recording exactly the allocated modbus address and the read-back RF
address. -/
theorem spec_C7 (addr : Nat) (liveRF : Option (Option Nat))
    (name : Option String) (pid : Nat) :
    ((liveRF = none ∨ liveRF = some none) →
      bindDoneController (some .OUTGOING_BINDING_COMPLETED) (some addr) liveRF name pid =
        .error .rfReadFailed ∧
      bindDoneAccessory (some .INCOMING_BINDING_COMPLETED) (some addr) liveRF name pid =
        .error .rfReadFailed) ∧
    (∀ rf, liveRF = some (some rf) →
      bindDoneController (some .OUTGOING_BINDING_COMPLETED) (some addr) liveRF name pid =
        .ok ⟨name, addr, pid, rf⟩ ∧
      bindDoneAccessory (some .INCOMING_BINDING_COMPLETED) (some addr) liveRF name pid =
        .ok ⟨name, addr, pid, rf⟩) := by
  constructor
  · intro habs
    rcases habs with rfl | rfl
    · exact ⟨rfl, rfl⟩
    · exact ⟨rfl, rfl⟩
  · intro rf hrf
    subst hrf
    exact ⟨rfl, rfl⟩

/-- Witness for C7 at an absent read-back value and at the read-back
value 7. -/
theorem spec_C7_witness :
    bindDoneController (some .OUTGOING_BINDING_COMPLETED) (some 2) (some none) none 11 =
      .error .rfReadFailed ∧
    bindDoneController (some .OUTGOING_BINDING_COMPLETED) (some 2) (some (some 7)) none 11 =
      .ok ⟨none, 2, 11, 7⟩ :=
  ⟨((spec_C7 2 (some none) none 11).1 (Or.inr rfl)).1,
   ((spec_C7 2 (some (some 7)) none 11).2 7 rfl).1⟩

/-- C8 (counterexample): on a snapshot in which the node exists but the
entity's property is absent from its property mapping, the coordinator
update handler does not complete with the entity marked unavailable: the
uncaught KeyError of the dict lookup escapes. -/
theorem spec_C8_counterexample :
    handleCoordinatorUpdate cexData 2 .CURRENT_VENTILATION_SPEED st0 =
      .escaped .keyError st0 ∧
    HandlerOutcome.escaped .keyError st0 ≠
      .completed { st0 with available := false } := by
  constructor
  · rfl
  · intro h
    exact absurd h (by simp)

/-- C8 (amended): when the entity's property Result is present but has no
value, the handler marks the entity unavailable and completes normally
without substituting a default; when the Result is absent from the node's
property mapping, or the node is absent from the snapshot, the KeyError
of the dict lookup escapes the handler; when a value is present the
handler completes with the decoded preset name and the entity
available. -/
theorem spec_C8 (data : AiriosData) (addr : Nat) (ap : AiriosVMDProperty)
    (st : FanState) :
    (∀ node r, lookupNode data.nodes addr = some node →
      lookupProp node (.single ap) = some r → r.value = none →
      handleCoordinatorUpdate data addr ap st =
        .completed { st with available := false }) ∧
    (∀ node, lookupNode data.nodes addr = some node →
      lookupProp node (.single ap) = none →
      handleCoordinatorUpdate data addr ap st = .escaped .keyError st) ∧
    (lookupNode data.nodes addr = none →
      handleCoordinatorUpdate data addr ap st = .escaped .keyError st) ∧
    (∀ node r v, lookupNode data.nodes addr = some node →
      lookupProp node (.single ap) = some r → r.value = some v →
      handleCoordinatorUpdate data addr ap st =
        .completed
          { preset := some (PRESET_NAMES v)
            available := true
            extra :=
              match r.status with
              | some s => some s
              | none => st.extra }) := by
  refine ⟨?_, ?_, ?_, ?_⟩
  · intro node r hn hp hv
    rw [handleCoordinatorUpdate, fetch_result, hn]
    simp only [hp, hv]
  · intro node hn hp
    rw [handleCoordinatorUpdate, fetch_result, hn]
    simp only [hp]
  · intro hn
    rw [handleCoordinatorUpdate, fetch_result, hn]
  · intro node r v hn hp hv
    rw [handleCoordinatorUpdate, fetch_result, hn]
    simp only [hp, hv]
    rfl

/-- Witness for C8 at a snapshot whose ventilation-speed property is
present but valueless. -/
theorem spec_C8_witness :
    handleCoordinatorUpdate noValueData 2 .CURRENT_VENTILATION_SPEED st0 =
      .completed { st0 with available := false } :=
  (spec_C8 noValueData 2 .CURRENT_VENTILATION_SPEED st0).1
    [(.single .CURRENT_VENTILATION_SPEED, ⟨none, none⟩)] ⟨none, none⟩ rfl rfl rfl

/-- C9: on every node whose property mapping is keyed by single property
identifiers, each of the four preset fan-speed services fails with the
Property-not-supported error before issuing any write, because its
support check looks up a 2-tuple of property identifiers as a dict
key. -/
theorem spec_C9 (node : AiriosNodeData) (dev : DevSet) (supply exhaust : Int)
    (hkeys : node.all (fun e => isSingleKey e.1) = true) :
    async_set_preset_fan_speed_away node dev supply exhaust =
      ([], .error .propertyNotSupported) ∧
    async_set_preset_fan_speed_low node dev supply exhaust =
      ([], .error .propertyNotSupported) ∧
    async_set_preset_fan_speed_medium node dev supply exhaust =
      ([], .error .propertyNotSupported) ∧
    async_set_preset_fan_speed_high node dev supply exhaust =
      ([], .error .propertyNotSupported) := by
  have hgen : ∀ p q, setPresetFanSpeedPair p q node dev supply exhaust =
      ([], .error .propertyNotSupported) := by
    intro p q
    rw [setPresetFanSpeedPair, lookupProp_pair_none node p q hkeys]
    exact rfl
  exact ⟨hgen _ _, hgen _ _, hgen _ _, hgen _ _⟩

/-- Witness for C9 at a node that carries both fan-speed properties of
every preset under their single property identifiers. -/
theorem spec_C9_witness :
    (lookupProp node9 (.single .FAN_SPEED_AWAY_SUPPLY)).isSome = true ∧
    (lookupProp node9 (.single .FAN_SPEED_AWAY_EXHAUST)).isSome = true ∧
    async_set_preset_fan_speed_away node9 dev0 30 40 =
      ([], .error .propertyNotSupported) :=
  ⟨by decide, by decide, (spec_C9 node9 dev0 30 40 (by decide)).1⟩

/-- C10: requesting the preset mode the fan is already in, turning on an
already-on fan, and turning off an already-off fan each issue no write
and request no refresh; whenever any of the three entry points requests
an out-of-band refresh, at least one write was actually issued. -/
theorem spec_C10 (st : FanState) (preset : String) (presetMode : Option String)
    (dev : DevSet) :
    (st.preset = some preset →
      async_set_preset_mode st preset dev = ([], none, false)) ∧
    (is_on st = true → async_turn_on st presetMode dev = ([], none, false)) ∧
    (is_on st = false → async_turn_off st dev = ([], none, false)) ∧
    (∀ cs e, async_set_preset_mode st preset dev = (cs, e, true) → cs ≠ []) ∧
    (∀ cs e, async_turn_on st presetMode dev = (cs, e, true) → cs ≠ []) ∧
    (∀ cs e, async_turn_off st dev = (cs, e, true) → cs ≠ []) := by
  have hmain : ∀ pr cs (e : Option FanErr),
      async_set_preset_mode st pr dev = (cs, e, true) → cs ≠ [] := by
    intro pr cs e h
    rw [async_set_preset_mode] at h
    cases hsp : setPresetModeInternal st pr dev with
    | mk cs2 r =>
      rw [hsp] at h
      cases r with
      | ok b =>
        have h2 : (cs2, (none : Option FanErr), b) = (cs, e, true) := h
        rw [Prod.mk.injEq] at h2
        obtain ⟨h3, h4⟩ := h2
        rw [Prod.mk.injEq] at h4
        subst h3
        rw [h4.2] at hsp
        exact setPresetModeInternal_ok_true st pr dev cs2 hsp
      | error e2 =>
        have h2 : (cs2, (some e2 : Option FanErr), false) = (cs, e, true) := h
        rw [Prod.mk.injEq] at h2
        obtain ⟨-, h4⟩ := h2
        rw [Prod.mk.injEq] at h4
        exact absurd h4.2 (by simp)
  refine ⟨?_, ?_, ?_, hmain preset, ?_, ?_⟩
  · intro heq
    rw [async_set_preset_mode, setPresetModeInternal, if_pos heq, withRefresh]
  · intro hon
    rw [async_turn_on, turnOnInternal, if_pos hon, withRefresh]
  · intro hoff
    rw [async_turn_off, turnOffInternal, hoff]
    exact rfl
  · intro cs e h
    rw [async_turn_on, turnOnInternal] at h
    split at h
    · have h2 : (([] : List SetCall), (none : Option FanErr), false) = (cs, e, true) := h
      rw [Prod.mk.injEq] at h2
      obtain ⟨-, h4⟩ := h2
      rw [Prod.mk.injEq] at h4
      exact absurd h4.2 (by simp)
    · exact hmain _ cs e h
  · intro cs e h
    rw [async_turn_off, turnOffInternal] at h
    split at h
    · exact hmain _ cs e h
    · have h2 : (([] : List SetCall), (none : Option FanErr), false) = (cs, e, true) := h
      rw [Prod.mk.injEq] at h2
      obtain ⟨-, h4⟩ := h2
      rw [Prod.mk.injEq] at h4
      exact absurd h4.2 (by simp)

/-- Witness for C10 at a fan already in the low preset. -/
theorem spec_C10_witness :
    async_set_preset_mode ⟨some "low", true, none⟩ "low" dev0 = ([], none, false) ∧
    async_turn_on ⟨some "low", true, none⟩ none dev0 = ([], none, false) ∧
    async_turn_off ⟨some "off", true, none⟩ dev0 = ([], none, false) :=
  ⟨(spec_C10 ⟨some "low", true, none⟩ "low" none dev0).1 rfl,
   (spec_C10 ⟨some "low", true, none⟩ "low" none dev0).2.1 rfl,
   (spec_C10 ⟨some "off", true, none⟩ "off" none dev0).2.2.1 rfl⟩

end Airios
